import Mathlib

/-!
Verification of the species-catalog client (interactive-page.tsx,
learn-more-dialog.tsx, page.tsx, edit-entry-dialog.tsx).

The development shallowly embeds the client-side form/dialog logic:
field validation (the zod speciesSchema), the submit and delete handlers of
LearnMoreDialog, the dialog state machine over the isEditing/isDeleting flags,
and the render conditions that decide which controls a user sees.
Definitions come first, lemmas and the claim theorems afterwards.
-/

namespace SpeciesApp

/-! ## Definitions

### Character classes and JS string trimming

JavaScript String.prototype.trim removes the WhiteSpace and LineTerminator
code points; the WHATWG URL constructor strips C0-control-or-space characters
from both ends before parsing.  Both are modelled on List Char.
-/

/-- The code points removed by JavaScript String.prototype.trim:
TAB, LF, VT, FF, CR, SPACE, NBSP, OGHAM SPACE, the U+2000..U+200A range,
LINE/PARAGRAPH SEPARATOR, NARROW NBSP, MATH SPACE, IDEOGRAPHIC SPACE, BOM. -/
def isJsWs (c : Char) : Bool :=
  decide (c.toNat = 0x9) || decide (c.toNat = 0xA) || decide (c.toNat = 0xB) ||
  decide (c.toNat = 0xC) || decide (c.toNat = 0xD) || decide (c.toNat = 0x20) ||
  decide (c.toNat = 0xA0) || decide (c.toNat = 0x1680) ||
  (decide (0x2000 ≤ c.toNat) && decide (c.toNat ≤ 0x200A)) ||
  decide (c.toNat = 0x2028) || decide (c.toNat = 0x2029) ||
  decide (c.toNat = 0x202F) || decide (c.toNat = 0x205F) ||
  decide (c.toNat = 0x3000) || decide (c.toNat = 0xFEFF)

/-- C0 control or space, the class the WHATWG URL parser strips at both ends. -/
def isC0OrSpace (c : Char) : Bool :=
  decide (c.toNat ≤ 0x20)

/-- ASCII letter. -/
def isAsciiAlpha (c : Char) : Bool :=
  (decide (0x41 ≤ c.toNat) && decide (c.toNat ≤ 0x5A)) ||
  (decide (0x61 ≤ c.toNat) && decide (c.toNat ≤ 0x7A))

/-- ASCII digit. -/
def isAsciiDigit (c : Char) : Bool :=
  decide (0x30 ≤ c.toNat) && decide (c.toNat ≤ 0x39)

/-- Remove the elements satisfying p from both ends of a list. -/
def trimBy (p : α → Bool) (l : List α) : List α :=
  (l.dropWhile p).rdropWhile p

/-- JavaScript String.prototype.trim, as used by the zod schema transforms. -/
def jsTrim (s : String) : String :=
  String.mk (trimBy isJsWs s.data)

/-- The transform shared by the nullable text fields of speciesSchema
(common_name, description, and the post-url-check image transform):
val maps to null when it is null, empty or whitespace-only, and to
val.trim() otherwise.  Mirrors the source transform
(val) =&gt; (!val || val.trim() === "" ? null : val.trim()), where !val is
true exactly for null and for the empty string. -/
def normalizeOpt (x : Option String) : Option String :=
  match x with
  | none => none
  | some s => if s = "" ∨ jsTrim s = "" then none else some (jsTrim s)

/-- Scheme characters after the leading letter: ASCII alphanumeric, plus,
minus, dot. -/
def isSchemeChar (c : Char) : Bool :=
  isAsciiAlpha c || isAsciiDigit c ||
  decide (c = '+') || decide (c = '-') || decide (c = '.')

/-- Does the character list start with a URL scheme: an ASCII letter followed
by scheme characters and a colon? -/
def hasScheme : List Char → Bool
  | [] => false
  | c :: rest => isAsciiAlpha c && ((rest.dropWhile isSchemeChar).head? == some ':')

/-- Models the zod .url() check of speciesSchema.  zod accepts a string when
the WHATWG URL constructor accepts it; that parser first strips
C0-control-or-space characters from both ends and then requires a scheme.
The model keeps exactly this scheme condition, which is what the claims about
empty and whitespace-only inputs need: every accepted string has a
non-whitespace character. -/
def isValidUrl (s : String) : Bool :=
  hasScheme (trimBy isC0OrSpace s.data)

/-! ### Field validation rules (speciesSchema, interactive-page.tsx lines 95-119) -/

deriving instance DecidableEq for Except

/-- The error kinds of the Field Validation Rules taxonomy. -/
inductive FieldError where
  | RequiredFieldError
  | InvalidEnumError
  | RangeError
  | FormatError
deriving DecidableEq, Repr

/-- One per-field validation issue, as zod reports them keyed by field name. -/
structure FieldIssue where
  field : String
  error : FieldError
deriving DecidableEq, Repr

/-- The six-element kingdom enumeration (z.enum). -/
def kingdoms : List String :=
  ["Animalia", "Plantae", "Fungi", "Protista", "Archaea", "Bacteria"]

/-- scientific_name: z.string().trim().min(1).transform(val.trim()):
trim, require length at least 1, then the transform trims again. -/
def scientific_nameRule (s : String) : Except FieldError String :=
  if 1 ≤ (jsTrim s).length then .ok (jsTrim (jsTrim s))
  else .error .RequiredFieldError

/-- common_name: z.string().nullable().transform(normalize to null or trim). -/
def common_nameRule (x : Option String) : Except FieldError (Option String) :=
  .ok (normalizeOpt x)

/-- kingdom: must be one of the six enumerated literals. -/
def kingdomRule (k : String) : Except FieldError String :=
  if k ∈ kingdoms then .ok k else .error .InvalidEnumError

/-- total_population: z.number().int().positive().min(1).nullable().
JS numbers are modelled as rationals so that non-integer inputs are
representable; int() is denominator 1, positive() is 0 &lt; q, min(1) is 1 ≤ q. -/
def total_populationRule (x : Option Rat) : Except FieldError (Option Rat) :=
  match x with
  | none => .ok none
  | some q => if q.den = 1 ∧ 0 < q ∧ 1 ≤ q then .ok (some q) else .error .RangeError

/-- image: z.string().url().nullable().transform(normalize to null or trim).
null skips the url check; a string must pass the url check first and only
then reaches the same empty-to-null transform as the other text fields. -/
def imageRule (x : Option String) : Except FieldError (Option String) :=
  match x with
  | none => .ok (normalizeOpt none)
  | some s => if isValidUrl s then .ok (normalizeOpt (some s)) else .error .FormatError

/-- description: same rule as common_name. -/
def descriptionRule (x : Option String) : Except FieldError (Option String) :=
  .ok (normalizeOpt x)

/-- The raw values held by the edit form: what react-hook-form passes to the
zod resolver.  kingdom is a raw string and total_population a raw number, so
out-of-enumeration and non-integer inputs are representable. -/
structure RawDraft where
  scientific_name : String
  common_name : Option String
  kingdom : String
  total_population : Option Rat
  image : Option String
  description : Option String
deriving DecidableEq, Repr

/-- The issue list contributed by one field rule. -/
def issuesOf (name : String) (r : Except FieldError β) : List FieldIssue :=
  match r with
  | .error e => [⟨name, e⟩]
  | .ok _ => []

/-- All issues of a draft, in schema field order. -/
def fieldIssues (d : RawDraft) : List FieldIssue :=
  issuesOf "scientific_name" (scientific_nameRule d.scientific_name) ++
  issuesOf "common_name" (common_nameRule d.common_name) ++
  issuesOf "kingdom" (kingdomRule d.kingdom) ++
  issuesOf "total_population" (total_populationRule d.total_population) ++
  issuesOf "image" (imageRule d.image) ++
  issuesOf "description" (descriptionRule d.description)

/-- The transformed object produced when every rule passes: each field carries
the output of its rule (see the coherence lemmas buildPayload_*). -/
def buildPayload (d : RawDraft) : RawDraft :=
  { scientific_name := jsTrim (jsTrim d.scientific_name)
    common_name := normalizeOpt d.common_name
    kingdom := d.kingdom
    total_population := d.total_population
    image := normalizeOpt d.image
    description := normalizeOpt d.description }

/-- zod safeParse of speciesSchema: succeeds with the transformed object
exactly when no field rule raises an issue. -/
def parseSpecies (d : RawDraft) : Except (List FieldIssue) RawDraft :=
  if fieldIssues d = [] then .ok (buildPayload d) else .error (fieldIssues d)

/-! ### The species record and the dialog state -/

/-- A row of the species table: server-assigned id, author (the creating
session), and the six data fields. -/
structure Species where
  id : Nat
  author : String
  scientific_name : String
  common_name : Option String
  kingdom : String
  total_population : Option Rat
  image : Option String
  description : Option String
deriving DecidableEq, Repr

/-- defaultValues of LearnMoreDialog: the form baseline taken from the record. -/
def defaultValuesOf (sp : Species) : RawDraft :=
  { scientific_name := sp.scientific_name
    common_name := sp.common_name
    kingdom := sp.kingdom
    total_population := sp.total_population
    image := sp.image
    description := sp.description }

/-- A toast notification event. -/
structure Toast where
  title : String
  description : Option String
  destructive : Bool
deriving DecidableEq, Repr

/-- Observable side effects of one handler run: the issued supabase update and
delete calls, whether router.refresh was called, and the toasts raised. -/
structure Effects where
  updateCalls : List (Nat × RawDraft)
  deleteCalls : List Nat
  refreshed : Bool
  toasts : List Toast
deriving DecidableEq, Repr

/-- No side effects. -/
def noEffects : Effects :=
  { updateCalls := [], deleteCalls := [], refreshed := false, toasts := [] }

/-- The local state of one LearnMoreDialog instance: the two useState flags,
the edit form values and baseline (react-hook-form values and defaultValues),
the delete-challenge input, and the resolver field errors. -/
structure DialogState where
  isEditing : Bool
  isDeleting : Bool
  draft : RawDraft
  baseline : RawDraft
  delInput : String
  fieldErrors : List FieldIssue
deriving DecidableEq, Repr

/-- Dialog state on open: both flags false, form initialized from the record. -/
def initState (sp : Species) : DialogState :=
  { isEditing := false, isDeleting := false, draft := defaultValuesOf sp
    baseline := defaultValuesOf sp, delInput := "", fieldErrors := [] }

/-- Outcome of one awaited supabase mutation call. -/
inductive BackendResult where
  | ok
  | err (message : String)
deriving DecidableEq, Repr

/-- JavaScript template-literal rendering of a nullable string. -/
def optToStr : Option String → String
  | none => "null"
  | some s => s

/-! ### Handlers of LearnMoreDialog (interactive-page.tsx lines 133-288;
learn-more-dialog.tsx carries the same handler bodies) -/

/-- onDelete (interactive-page.tsx lines 175-219).  The challenge input is
compared byte-for-byte against "DELETE " concatenated with the scientific
name.  On match a delete call for the record id is issued; backend failure
raises a destructive toast with the backend message and changes nothing else;
backend success clears the challenge input, resets both flags, refreshes and
raises a success toast naming the record.  On mismatch no delete call is
issued, only the challenge input is cleared, and a destructive
"Improper deletion input" toast is raised. -/
def onDelete (sp : Species) (st : DialogState) (delInput : String)
    (res : BackendResult) : DialogState × Effects :=
  if delInput = "DELETE " ++ sp.scientific_name then
    match res with
    | .err m =>
      (st,
       { updateCalls := [], deleteCalls := [sp.id], refreshed := false
         toasts := [⟨"Something went wrong.", some m, true⟩] })
    | .ok =>
      ({ st with delInput := "", isDeleting := false, isEditing := false },
       { updateCalls := [], deleteCalls := [sp.id], refreshed := true
         toasts := [⟨sp.scientific_name ++ " was successfully deleted", none, false⟩] })
  else
    ({ st with delInput := "" },
     { updateCalls := [], deleteCalls := [], refreshed := false
       toasts := [⟨"Something went wrong.", some "Improper deletion input", true⟩] })

/-- onSubmit (interactive-page.tsx lines 223-263), run on the already
validated payload.  One update call scoped by the record id is issued.  On
backend failure only a destructive toast with the backend message is raised.
On success isEditing is reset, form.reset(input) sets values and baseline to
the submitted payload, the router refreshes and a success toast is raised. -/
def onSubmit (sp : Species) (st : DialogState) (input : RawDraft)
    (res : BackendResult) : DialogState × Effects :=
  match res with
  | .err m =>
    ({ st with fieldErrors := [] },
     { updateCalls := [(sp.id, input)], deleteCalls := [], refreshed := false
       toasts := [⟨"Something went wrong.", some m, true⟩] })
  | .ok =>
    ({ st with isEditing := false, draft := input, baseline := input, fieldErrors := [] },
     { updateCalls := [(sp.id, input)], deleteCalls := [], refreshed := true
       toasts := [⟨optToStr sp.common_name ++ " data was updated successfully!", none, false⟩] })

/-- form.handleSubmit(onSubmit) with the zod resolver: the draft is validated
first; on failure the field errors are surfaced and onSubmit never runs, so
no network call is issued; on success onSubmit receives the parsed payload. -/
def handleSubmit (sp : Species) (st : DialogState) (res : BackendResult) :
    DialogState × Effects :=
  match parseSpecies st.draft with
  | .error issues => ({ st with fieldErrors := issues }, noEffects)
  | .ok input => onSubmit sp st input res

/-- handleCancel (interactive-page.tsx lines 272-281): reset both forms to
their defaults and clear both flags. -/
def handleCancel (sp : Species) (st : DialogState) : DialogState :=
  { st with
    draft := defaultValuesOf sp
    baseline := defaultValuesOf sp
    delInput := ""
    isEditing := false
    isDeleting := false }

/-! ### Render conditions of LearnMoreDialog (interactive-page.tsx lines 294-513)

When isDeleting the dialog shows the delete-confirmation form (challenge
input, DELETE ENTRY submit, Cancel) with no author condition in the markup;
otherwise the edit form is shown, with the button block guarded by
userId === species.author, splitting on isEditing. -/

/-- The Start Editing button is rendered. -/
def showsStartEditButton (sp : Species) (userId : String) (st : DialogState) : Bool :=
  !st.isDeleting && userId == sp.author && !st.isEditing

/-- The Delete Entry button (entering delete-confirm mode) is rendered. -/
def showsDeleteEntryButton (sp : Species) (userId : String) (st : DialogState) : Bool :=
  !st.isDeleting && userId == sp.author && !st.isEditing

/-- The Edit Entry submit button (with its Cancel) is rendered. -/
def showsEditSubmitButton (sp : Species) (userId : String) (st : DialogState) : Bool :=
  !st.isDeleting && userId == sp.author && st.isEditing

/-- The delete-confirmation form (challenge input and DELETE ENTRY submit)
is rendered. -/
def showsDeleteForm (st : DialogState) : Bool :=
  st.isDeleting

/-- The data inputs are editable: every input carries readOnly when not
isEditing, and the kingdom select is disabled then. -/
def fieldsEditable (st : DialogState) : Bool :=
  !st.isDeleting && st.isEditing

/-! ### The dialog state machine -/

/-- The user interactions that drive one dialog instance.  The submit events
carry the awaited backend outcome. -/
inductive Event where
  | typeDraft (d : RawDraft)
  | typeChallenge (s : String)
  | clickStartEdit
  | clickDelete
  | clickCancel
  | submitEdit (res : BackendResult)
  | submitDelete (res : BackendResult)

/-- One step of the dialog: an event fires only if the control producing it is
currently rendered, and then runs the corresponding handler. -/
def step (sp : Species) (userId : String) (st : DialogState) :
    Event → DialogState × Effects
  | .typeDraft d =>
    if fieldsEditable st then ({ st with draft := d }, noEffects) else (st, noEffects)
  | .typeChallenge s =>
    if showsDeleteForm st then ({ st with delInput := s }, noEffects) else (st, noEffects)
  | .clickStartEdit =>
    if showsStartEditButton sp userId st then ({ st with isEditing := true }, noEffects)
    else (st, noEffects)
  | .clickDelete =>
    if showsDeleteEntryButton sp userId st then ({ st with isDeleting := true }, noEffects)
    else (st, noEffects)
  | .clickCancel =>
    if showsDeleteForm st || showsEditSubmitButton sp userId st then
      (handleCancel sp st, noEffects)
    else (st, noEffects)
  | .submitEdit res =>
    if showsEditSubmitButton sp userId st then handleSubmit sp st res else (st, noEffects)
  | .submitDelete res =>
    if showsDeleteForm st then onDelete sp st st.delInput res else (st, noEffects)

/-- The dialog states reachable from the initial Viewing state through the
triggers of the dialog. -/
inductive Reachable (sp : Species) (userId : String) : DialogState → Prop where
  | init : Reachable sp userId (initState sp)
  | step (st : DialogState) (e : Event) :
      Reachable sp userId st → Reachable sp userId (SpeciesApp.step sp userId st e).1

/-! ### EditEntryDialog (edit-entry-dialog.tsx lines 73-291) -/

/-- The controls EditEntryDialog renders. -/
structure EditEntryControls where
  showsEditSpeciesSubmit : Bool
  showsCancelClose : Bool
  fieldsReadOnly : Bool
deriving DecidableEq, Repr

/-- Render of EditEntryDialog: the form fields and the Edit Species submit
button are rendered unconditionally; the userId prop and the author column
are never consulted, and no input carries readOnly. -/
def editEntryRender (species : Species) (userId : String) (isEditing : Bool) :
    EditEntryControls :=
  { showsEditSpeciesSubmit := true, showsCancelClose := true, fieldsReadOnly := false }

/-! ### The species page list (page.tsx, interactive-page.tsx lines 14-51) -/

/-- Rows remaining in the store after the supabase call
delete().eq("id", id). -/
def deleteFromStore (store : List Species) (id : Nat) : List Species :=
  store.filter (fun r => r.id != id)

/-- The keys of the cards the species page renders after fetching the store:
one SpeciesCard, hosting one dialog, per fetched row. -/
def renderedCardIds (store : List Species) : List Nat :=
  store.map (fun r => r.id)

/-! ### Concrete sample data for the witnesses -/

/-- A sample record owned by alice. -/
def spGuinea : Species :=
  { id := 1, author := "alice", scientific_name := "Cavia porcellus"
    common_name := some "Guinea pig", kingdom := "Animalia"
    total_population := some 300000, image := none
    description := some "A domesticated rodent." }

/-- A second sample record, used as an unrelated row of the store. -/
def spFly : Species :=
  { id := 2, author := "carol", scientific_name := "Drosophila melanogaster"
    common_name := none, kingdom := "Animalia"
    total_population := none, image := none, description := none }

/-- A draft that passes every rule. -/
def goodDraft : RawDraft :=
  { scientific_name := " Cavia porcellus ", common_name := some "Guinea pig"
    kingdom := "Animalia", total_population := none
    image := some "https://example.org/pig.jpg", description := some "  " }

/-- A draft whose kingdom lies outside the enumeration. -/
def badDraft : RawDraft :=
  { scientific_name := "Cavia porcellus", common_name := some "Guinea pig"
    kingdom := "Vegetablia", total_population := none, image := none
    description := none }

/-- The sample dialog state in Editing mode holding a draft. -/
def editingState (sp : Species) (d : RawDraft) : DialogState :=
  { initState sp with isEditing := true, draft := d }

/-- The sample dialog state in ConfirmingDelete mode. -/
def deletingState (sp : Species) : DialogState :=
  { initState sp with isDeleting := true }

/-- The payload speciesSchema produces for goodDraft. -/
def goodPayload : RawDraft :=
  { scientific_name := "Cavia porcellus", common_name := some "Guinea pig"
    kingdom := "Animalia", total_population := none
    image := some "https://example.org/pig.jpg", description := none }

/-! ## Lemmas -/

theorem isAsciiAlpha_not_isJsWs {c : Char} (h : isAsciiAlpha c = true) :
    isJsWs c = false := by
  simp only [isAsciiAlpha, Bool.or_eq_true, Bool.and_eq_true, decide_eq_true_eq] at h
  simp only [isJsWs, Bool.or_eq_false_iff, Bool.and_eq_false_iff, decide_eq_false_iff_not]
  omega

theorem mem_of_mem_trimBy {p : α → Bool} {l : List α} {a : α}
    (h : a ∈ trimBy p l) : a ∈ l :=
  (List.dropWhile_suffix p).subset ((List.rdropWhile_prefix p (l.dropWhile p)).subset h)

theorem trimBy_eq_nil_iff {p : α → Bool} {l : List α} :
    trimBy p l = [] ↔ ∀ a ∈ l, p a = true := by
  rw [trimBy, List.rdropWhile_eq_nil_iff]
  constructor
  · intro h a ha
    have hsplit : a ∈ List.takeWhile p l ++ List.dropWhile p l := by
      rw [List.takeWhile_append_dropWhile]; exact ha
    rcases List.mem_append.mp hsplit with htk | hdp
    · exact List.mem_takeWhile_imp htk
    · exact h a hdp
  · intro h a ha
    exact h a ((List.dropWhile_suffix p).subset ha)

theorem head?_of_isPrefix {l₁ l₂ : List α} (h : l₁ <+: l₂) (hne : l₁ ≠ []) :
    l₁.head? = l₂.head? := by
  obtain ⟨u, rfl⟩ := h
  cases l₁ with
  | nil => exact absurd rfl hne
  | cons a t => rfl

theorem dropWhile_trimBy (p : α → Bool) (l : List α) :
    (trimBy p l).dropWhile p = trimBy p l := by
  cases htb : trimBy p l with
  | nil => rfl
  | cons a t =>
    have hpre := List.rdropWhile_prefix p (l.dropWhile p)
    rw [trimBy] at htb
    rw [htb] at hpre
    have hh : (l.dropWhile p).head? = some a := by
      rw [← head?_of_isPrefix hpre (by simp)]
      rfl
    have hpa : p a = false := by
      have h0 := List.head?_dropWhile_not p l
      rw [hh] at h0
      exact h0
    rw [List.dropWhile_cons_of_neg (by simp [hpa])]

theorem trimBy_idempotent (p : α → Bool) (l : List α) :
    trimBy p (trimBy p l) = trimBy p l := by
  rw [trimBy, dropWhile_trimBy, trimBy, List.rdropWhile_idempotent]

theorem jsTrim_data (s : String) : (jsTrim s).data = trimBy isJsWs s.data := rfl

theorem jsTrim_idempotent (s : String) : jsTrim (jsTrim s) = jsTrim s :=
  congrArg String.mk (trimBy_idempotent isJsWs s.data)

theorem jsTrim_eq_empty_iff {s : String} :
    jsTrim s = "" ↔ ∀ c ∈ s.data, isJsWs c = true := by
  constructor
  · intro h
    have : (jsTrim s).data = ([] : List Char) := by rw [h]
    rw [jsTrim_data] at this
    exact trimBy_eq_nil_iff.mp this
  · intro h
    have : trimBy isJsWs s.data = [] := trimBy_eq_nil_iff.mpr h
    show String.mk (trimBy isJsWs s.data) = ""
    rw [this]

theorem normalizeOpt_of_allWs {s : String} (h : ∀ c ∈ s.data, isJsWs c = true) :
    normalizeOpt (some s) = none := by
  simp [normalizeOpt, jsTrim_eq_empty_iff.mpr h]

theorem normalizeOpt_of_not_allWs {s : String} (h : ¬ ∀ c ∈ s.data, isJsWs c = true) :
    normalizeOpt (some s) = some (jsTrim s) := by
  have hne : jsTrim s ≠ "" := fun hc => h (jsTrim_eq_empty_iff.mp hc)
  have hse : s ≠ "" := by
    intro hs
    exact h (by intro c hc; rw [hs] at hc; cases hc)
  simp [normalizeOpt, hne, hse]

theorem normalizeOpt_idempotent (x : Option String) :
    normalizeOpt (normalizeOpt x) = normalizeOpt x := by
  match x with
  | none => rfl
  | some s =>
    by_cases h : s = "" ∨ jsTrim s = ""
    · simp [normalizeOpt, h]
    · have h1 : normalizeOpt (some s) = some (jsTrim s) := by
        simp [normalizeOpt, h]
      rw [h1]
      have h3 : ¬ jsTrim s = "" := fun hc => h (Or.inr hc)
      simp [normalizeOpt, jsTrim_idempotent, h3]

theorem not_allWs_of_isValidUrl {s : String} (h : isValidUrl s = true) :
    ¬ ∀ c ∈ s.data, isJsWs c = true := by
  intro hall
  rw [isValidUrl] at h
  cases htb : trimBy isC0OrSpace s.data with
  | nil => rw [htb] at h; exact absurd h (by simp [hasScheme])
  | cons a t =>
    rw [htb] at h
    simp only [hasScheme, Bool.and_eq_true] at h
    have ha : a ∈ s.data := mem_of_mem_trimBy (htb ▸ List.mem_cons_self a t)
    have hnws := isAsciiAlpha_not_isJsWs h.1
    rw [hall a ha] at hnws
    cases hnws

theorem normalizeOpt_of_isValidUrl {s : String} (h : isValidUrl s = true) :
    normalizeOpt (some s) = some (jsTrim s) :=
  normalizeOpt_of_not_allWs (not_allWs_of_isValidUrl h)

theorem parseSpecies_ok_iff {d p : RawDraft} :
    parseSpecies d = .ok p ↔ fieldIssues d = [] ∧ p = buildPayload d := by
  by_cases h : fieldIssues d = []
  · simp [parseSpecies, h, eq_comm]
  · simp [parseSpecies, h]

theorem parseSpecies_error_iff {d : RawDraft} {issues : List FieldIssue} :
    parseSpecies d = .error issues ↔ issues = fieldIssues d ∧ fieldIssues d ≠ [] := by
  by_cases h : fieldIssues d = []
  · simp [parseSpecies, h]
  · simp [parseSpecies, h, eq_comm]

theorem handleSubmit_isDeleting (sp : Species) (st : DialogState) (res : BackendResult) :
    (handleSubmit sp st res).1.isDeleting = st.isDeleting := by
  unfold handleSubmit
  split
  · rfl
  · unfold onSubmit
    cases res <;> rfl

theorem onDelete_isEditing (sp : Species) (st : DialogState) (delInput : String)
    (res : BackendResult) :
    (onDelete sp st delInput res).1.isEditing = true → st.isEditing = true := by
  unfold onDelete
  split
  · cases res <;> simp
  · simp

theorem step_flags (sp : Species) (userId : String) (st : DialogState) (e : Event)
    (h : ¬(st.isEditing = true ∧ st.isDeleting = true)) :
    ¬((step sp userId st e).1.isEditing = true ∧
      (step sp userId st e).1.isDeleting = true) := by
  cases e with
  | typeDraft d =>
    by_cases hg : fieldsEditable st = true
    · simpa [step, hg] using h
    · simpa [step, hg] using h
  | typeChallenge s =>
    by_cases hg : showsDeleteForm st = true
    · simpa [step, hg] using h
    · simpa [step, hg] using h
  | clickStartEdit =>
    by_cases hg : showsStartEditButton sp userId st = true
    · have hg' := hg
      simp only [showsStartEditButton, Bool.and_eq_true, Bool.not_eq_true'] at hg'
      simp [step, hg, hg'.1.1]
    · simpa [step, hg] using h
  | clickDelete =>
    by_cases hg : showsDeleteEntryButton sp userId st = true
    · have hg' := hg
      simp only [showsDeleteEntryButton, Bool.and_eq_true, Bool.not_eq_true'] at hg'
      simp [step, hg, hg'.2]
    · simpa [step, hg] using h
  | clickCancel =>
    by_cases hg : (showsDeleteForm st || showsEditSubmitButton sp userId st) = true
    · simp [step, hg, handleCancel]
    · simpa [step, hg] using h
  | submitEdit res =>
    by_cases hg : showsEditSubmitButton sp userId st = true
    · have hg' := hg
      simp only [showsEditSubmitButton, Bool.and_eq_true, Bool.not_eq_true'] at hg'
      simp only [step, hg, if_true]
      rintro ⟨h1, h2⟩
      rw [handleSubmit_isDeleting, hg'.1.1] at h2
      cases h2
    · simpa [step, hg] using h
  | submitDelete res =>
    by_cases hg : showsDeleteForm st = true
    · have hgd : st.isDeleting = true := by simpa [showsDeleteForm] using hg
      have he : st.isEditing = false := by
        cases hbe : st.isEditing
        · rfl
        · exact absurd ⟨hbe, hgd⟩ h
      simp only [step, hg, if_true]
      rintro ⟨h1, h2⟩
      have := onDelete_isEditing sp st st.delInput res h1
      rw [he] at this
      cases this
    · simpa [step, hg] using h

theorem step_nonauthor (sp : Species) (userId : String) (st : DialogState) (e : Event)
    (hne : userId ≠ sp.author) (h1 : st.isEditing = false) (h2 : st.isDeleting = false) :
    (step sp userId st e).1 = st := by
  have hb : (userId == sp.author) = false := beq_eq_false_iff_ne.mpr hne
  cases e <;>
    simp [step, fieldsEditable, showsDeleteForm, showsStartEditButton,
      showsDeleteEntryButton, showsEditSubmitButton, h1, h2, hb]

theorem reachable_nonauthor_eq_init (sp : Species) (userId : String) (st : DialogState)
    (hne : userId ≠ sp.author) (h : Reachable sp userId st) : st = initState sp := by
  induction h with
  | init => rfl
  | step st e hr ih =>
    rw [ih]
    exact step_nonauthor sp userId (initState sp) e hne rfl rfl

/-! ## Claim theorems -/

/-- C1: the Confirmation Gate accepts, issuing a delete request for the
record id, exactly when the typed input is byte-for-byte equal to the string
DELETE followed by a space and the scientific name; any other input is
rejected with an improper-deletion-input error and no delete call. -/
theorem confirmationGate_accepts_iff_exact (sp : Species) (st : DialogState)
    (delInput : String) (res : BackendResult) :
    ((onDelete sp st delInput res).2.deleteCalls = [sp.id] ↔
      delInput = "DELETE " ++ sp.scientific_name) ∧
    (delInput ≠ "DELETE " ++ sp.scientific_name →
      (onDelete sp st delInput res).2.deleteCalls = [] ∧
      (onDelete sp st delInput res).2.toasts =
        [⟨"Something went wrong.", some "Improper deletion input", true⟩]) := by
  by_cases h : delInput = "DELETE " ++ sp.scientific_name
  · cases res <;> simp [onDelete, h]
  · simp [onDelete, h]

/-- C1 witness: for the Cavia porcellus record, the lowercase variant is
rejected without a delete call while the exact challenge issues one. -/
theorem confirmationGate_accepts_iff_exact_witness :
    (onDelete spGuinea (deletingState spGuinea) "delete Cavia porcellus" .ok).2.deleteCalls = [] ∧
    (onDelete spGuinea (deletingState spGuinea) "DELETE Cavia porcellus" .ok).2.deleteCalls = [spGuinea.id] := by
  refine ⟨((confirmationGate_accepts_iff_exact spGuinea (deletingState spGuinea)
    "delete Cavia porcellus" .ok).2 (by decide)).1, ?_⟩
  exact (confirmationGate_accepts_iff_exact spGuinea (deletingState spGuinea)
    "DELETE Cavia porcellus" .ok).1.mpr (by decide)

/-- C2: when the challenge matches and the backend delete succeeds, the
handler clears the challenge input, resets both flags, triggers a re-fetch,
raises a success toast naming the scientific name, and after the re-fetch the
deleted record has no card, hence no dialog, on the page. -/
theorem deleteSuccess_clears_state_and_closes (sp : Species) (st : DialogState)
    (delInput : String) (store : List Species)
    (h : delInput = "DELETE " ++ sp.scientific_name) :
    (onDelete sp st delInput .ok).1 =
      { st with delInput := "", isDeleting := false, isEditing := false } ∧
    (onDelete sp st delInput .ok).2.refreshed = true ∧
    (onDelete sp st delInput .ok).2.toasts =
      [⟨sp.scientific_name ++ " was successfully deleted", none, false⟩] ∧
    sp.id ∉ renderedCardIds (deleteFromStore store sp.id) := by
  refine ⟨by simp [onDelete, h], by simp [onDelete, h], by simp [onDelete, h], ?_⟩
  intro hmem
  rw [renderedCardIds, List.mem_map] at hmem
  obtain ⟨r, hr, hid⟩ := hmem
  rw [deleteFromStore, List.mem_filter] at hr
  have hbad := hr.2
  rw [hid] at hbad
  simp at hbad

/-- C2 witness: deleting the Cavia porcellus record with the exact challenge
and a successful backend call, over a two-row store. -/
theorem deleteSuccess_clears_state_and_closes_witness :
    (onDelete spGuinea (deletingState spGuinea) "DELETE Cavia porcellus" .ok).1 =
      { deletingState spGuinea with delInput := "", isDeleting := false, isEditing := false } ∧
    (onDelete spGuinea (deletingState spGuinea) "DELETE Cavia porcellus" .ok).2.refreshed = true ∧
    (onDelete spGuinea (deletingState spGuinea) "DELETE Cavia porcellus" .ok).2.toasts =
      [⟨spGuinea.scientific_name ++ " was successfully deleted", none, false⟩] ∧
    spGuinea.id ∉ renderedCardIds (deleteFromStore [spGuinea, spFly] spGuinea.id) :=
  deleteSuccess_clears_state_and_closes spGuinea (deletingState spGuinea)
    "DELETE Cavia porcellus" [spGuinea, spFly] (by decide)

/-- C3: when the draft validates but the backend update fails, the dialog
stays in Editing mode with the submitted draft and baseline untouched, no
re-fetch happens, exactly one destructive toast carrying the backend message
is raised, and exactly one update call was issued, so there is no retry. -/
theorem updateFailure_preserves_editing_draft (sp : Species) (st : DialogState)
    (input : RawDraft) (m : String) (he : st.isEditing = true)
    (hp : parseSpecies st.draft = .ok input) :
    (handleSubmit sp st (.err m)).1.isEditing = true ∧
    (handleSubmit sp st (.err m)).1.draft = st.draft ∧
    (handleSubmit sp st (.err m)).1.baseline = st.baseline ∧
    (handleSubmit sp st (.err m)).2.refreshed = false ∧
    (handleSubmit sp st (.err m)).2.toasts = [⟨"Something went wrong.", some m, true⟩] ∧
    (handleSubmit sp st (.err m)).2.updateCalls = [(sp.id, input)] := by
  simp [handleSubmit, hp, onSubmit, he]

/-- C3 witness: a failing backend update against a valid draft. -/
theorem updateFailure_preserves_editing_draft_witness :
    (handleSubmit spGuinea (editingState spGuinea goodDraft) (.err "boom")).1.isEditing = true ∧
    (handleSubmit spGuinea (editingState spGuinea goodDraft) (.err "boom")).1.draft =
      (editingState spGuinea goodDraft).draft ∧
    (handleSubmit spGuinea (editingState spGuinea goodDraft) (.err "boom")).1.baseline =
      (editingState spGuinea goodDraft).baseline ∧
    (handleSubmit spGuinea (editingState spGuinea goodDraft) (.err "boom")).2.refreshed = false ∧
    (handleSubmit spGuinea (editingState spGuinea goodDraft) (.err "boom")).2.toasts =
      [⟨"Something went wrong.", some "boom", true⟩] ∧
    (handleSubmit spGuinea (editingState spGuinea goodDraft) (.err "boom")).2.updateCalls =
      [(spGuinea.id, goodPayload)] :=
  updateFailure_preserves_editing_draft spGuinea (editingState spGuinea goodDraft)
    goodPayload "boom" (by decide) (by decide)

/-- C4: when the draft validates and the backend update succeeds, the form
baseline and values are reset to the submitted payload, the dialog leaves
Editing mode, a re-fetch is triggered and a success toast is raised. -/
theorem updateSuccess_sets_baseline_and_views (sp : Species) (st : DialogState)
    (input : RawDraft) (he : st.isEditing = true)
    (hp : parseSpecies st.draft = .ok input) :
    (handleSubmit sp st .ok).1.baseline = input ∧
    (handleSubmit sp st .ok).1.draft = input ∧
    (handleSubmit sp st .ok).1.isEditing = false ∧
    (handleSubmit sp st .ok).2.refreshed = true ∧
    (handleSubmit sp st .ok).2.updateCalls = [(sp.id, input)] ∧
    (handleSubmit sp st .ok).2.toasts =
      [⟨optToStr sp.common_name ++ " data was updated successfully!", none, false⟩] := by
  simp [handleSubmit, hp, onSubmit]

/-- C4 witness: a successful backend update against a valid draft. -/
theorem updateSuccess_sets_baseline_and_views_witness :
    (handleSubmit spGuinea (editingState spGuinea goodDraft) .ok).1.baseline = goodPayload ∧
    (handleSubmit spGuinea (editingState spGuinea goodDraft) .ok).1.draft = goodPayload ∧
    (handleSubmit spGuinea (editingState spGuinea goodDraft) .ok).1.isEditing = false ∧
    (handleSubmit spGuinea (editingState spGuinea goodDraft) .ok).2.refreshed = true ∧
    (handleSubmit spGuinea (editingState spGuinea goodDraft) .ok).2.updateCalls =
      [(spGuinea.id, goodPayload)] ∧
    (handleSubmit spGuinea (editingState spGuinea goodDraft) .ok).2.toasts =
      [⟨optToStr spGuinea.common_name ++ " data was updated successfully!", none, false⟩] :=
  updateSuccess_sets_baseline_and_views spGuinea (editingState spGuinea goodDraft)
    goodPayload (by decide) (by decide)

/-- C5: when any field rule fails, submit surfaces the nonempty per-field
issue list, leaves everything else in the dialog state unchanged, and issues
no network call, no re-fetch and no toast. -/
theorem validationFailure_no_network (sp : Species) (st : DialogState)
    (res : BackendResult) (issues : List FieldIssue)
    (hp : parseSpecies st.draft = .error issues) :
    (handleSubmit sp st res).1 = { st with fieldErrors := issues } ∧
    issues ≠ [] ∧
    (handleSubmit sp st res).2 = noEffects := by
  have h2 := parseSpecies_error_iff.mp hp
  refine ⟨by simp [handleSubmit, hp], ?_, by simp [handleSubmit, hp]⟩
  rw [h2.1]
  exact h2.2

/-- C5 witness: a draft with the kingdom Vegetablia fails with exactly the
invalid-enumeration issue and produces no effects. -/
theorem validationFailure_no_network_witness :
    (handleSubmit spGuinea (editingState spGuinea badDraft) .ok).1 =
      { editingState spGuinea badDraft with
        fieldErrors := [⟨"kingdom", FieldError.InvalidEnumError⟩] } ∧
    ([⟨"kingdom", FieldError.InvalidEnumError⟩] : List FieldIssue) ≠ [] ∧
    (handleSubmit spGuinea (editingState spGuinea badDraft) .ok).2 = noEffects :=
  validationFailure_no_network spGuinea (editingState spGuinea badDraft) .ok
    [⟨"kingdom", FieldError.InvalidEnumError⟩] (by decide)

/-- C6 counterexample: EditEntryDialog renders its Edit Species submit button
and editable fields to the session bob even though the sample record is
authored by alice, so a non-author does see edit controls in that dialog
component. -/
theorem editEntry_shows_edit_controls_to_nonauthor :
    "bob" ≠ spGuinea.author ∧
    (editEntryRender spGuinea "bob" false).showsEditSpeciesSubmit = true ∧
    (editEntryRender spGuinea "bob" false).fieldsReadOnly = false :=
  ⟨by decide, rfl, rfl⟩

/-- C6 amended: within LearnMoreDialog, a session that is not the author of
the record never sees the start-edit, edit-submit, delete-entry or
delete-confirmation controls in any reachable dialog state, and the data
fields stay read-only. -/
theorem learnMore_nonauthor_no_controls (sp : Species) (userId : String)
    (st : DialogState) (hne : userId ≠ sp.author) (h : Reachable sp userId st) :
    showsStartEditButton sp userId st = false ∧
    showsEditSubmitButton sp userId st = false ∧
    showsDeleteEntryButton sp userId st = false ∧
    showsDeleteForm st = false ∧
    fieldsEditable st = false := by
  have hst := reachable_nonauthor_eq_init sp userId st hne h
  subst hst
  have hb : (userId == sp.author) = false := beq_eq_false_iff_ne.mpr hne
  simp [showsStartEditButton, showsEditSubmitButton, showsDeleteEntryButton,
    showsDeleteForm, fieldsEditable, initState, hb]

/-- C6 amended witness: bob, not the author of the sample record, sees no
controls in the freshly opened dialog. -/
theorem learnMore_nonauthor_no_controls_witness :
    showsStartEditButton spGuinea "bob" (initState spGuinea) = false ∧
    showsEditSubmitButton spGuinea "bob" (initState spGuinea) = false ∧
    showsDeleteEntryButton spGuinea "bob" (initState spGuinea) = false ∧
    showsDeleteForm (initState spGuinea) = false ∧
    fieldsEditable (initState spGuinea) = false :=
  learnMore_nonauthor_no_controls spGuinea "bob" (initState spGuinea)
    (by decide) Reachable.init

/-- C7: a non-matching challenge input clears only the challenge input
field, keeps the dialog in delete-confirm mode with draft and baseline
untouched, issues no delete call and raises the improper-deletion-input
toast. -/
theorem challengeMismatch_clears_only_input (sp : Species) (st : DialogState)
    (delInput : String) (res : BackendResult) (hd : st.isDeleting = true)
    (h : delInput ≠ "DELETE " ++ sp.scientific_name) :
    (onDelete sp st delInput res).1 = { st with delInput := "" } ∧
    (onDelete sp st delInput res).1.isDeleting = true ∧
    (onDelete sp st delInput res).1.draft = st.draft ∧
    (onDelete sp st delInput res).1.baseline = st.baseline ∧
    (onDelete sp st delInput res).2.deleteCalls = [] ∧
    (onDelete sp st delInput res).2.refreshed = false ∧
    (onDelete sp st delInput res).2.toasts =
      [⟨"Something went wrong.", some "Improper deletion input", true⟩] := by
  simp [onDelete, h, hd]

/-- C7 witness: the lowercase challenge against the Cavia porcellus record. -/
theorem challengeMismatch_clears_only_input_witness :
    (onDelete spGuinea (deletingState spGuinea) "delete Cavia porcellus" .ok).1 =
      { deletingState spGuinea with delInput := "" } ∧
    (onDelete spGuinea (deletingState spGuinea) "delete Cavia porcellus" .ok).1.isDeleting = true ∧
    (onDelete spGuinea (deletingState spGuinea) "delete Cavia porcellus" .ok).1.draft =
      (deletingState spGuinea).draft ∧
    (onDelete spGuinea (deletingState spGuinea) "delete Cavia porcellus" .ok).1.baseline =
      (deletingState spGuinea).baseline ∧
    (onDelete spGuinea (deletingState spGuinea) "delete Cavia porcellus" .ok).2.deleteCalls = [] ∧
    (onDelete spGuinea (deletingState spGuinea) "delete Cavia porcellus" .ok).2.refreshed = false ∧
    (onDelete spGuinea (deletingState spGuinea) "delete Cavia porcellus" .ok).2.toasts =
      [⟨"Something went wrong.", some "Improper deletion input", true⟩] :=
  challengeMismatch_clears_only_input spGuinea (deletingState spGuinea)
    "delete Cavia porcellus" .ok (by decide) (by decide)

/-- C8: in every dialog state reachable from the initial Viewing state
through the triggers of the dialog, the editing flag and the deleting flag
are never both true. -/
theorem dialog_never_editing_and_deleting (sp : Species) (userId : String)
    (st : DialogState) (h : Reachable sp userId st) :
    ¬(st.isEditing = true ∧ st.isDeleting = true) := by
  induction h with
  | init => simp [initState]
  | step st e hr ih => exact step_flags sp userId st e ih

/-- C8 witness: the state after the author starts editing. -/
theorem dialog_never_editing_and_deleting_witness :
    ¬((step spGuinea "alice" (initState spGuinea) Event.clickStartEdit).1.isEditing = true ∧
      (step spGuinea "alice" (initState spGuinea) Event.clickStartEdit).1.isDeleting = true) :=
  dialog_never_editing_and_deleting spGuinea "alice" _
    (Reachable.step (initState spGuinea) Event.clickStartEdit Reachable.init)

/-- C9: the common_name and description rules send every whitespace-only
string, the empty string included, to null and every other string to its
trimmed form, and the normalization is idempotent. -/
theorem textNormalization_ws_null_idem (s : String) (x : Option String) :
    ((∀ c ∈ s.data, isJsWs c = true) →
      common_nameRule (some s) = .ok none ∧ descriptionRule (some s) = .ok none) ∧
    ((¬ ∀ c ∈ s.data, isJsWs c = true) →
      common_nameRule (some s) = .ok (some (jsTrim s)) ∧
      descriptionRule (some s) = .ok (some (jsTrim s))) ∧
    normalizeOpt (normalizeOpt x) = normalizeOpt x := by
  refine ⟨fun h => ?_, fun h => ?_, normalizeOpt_idempotent x⟩
  · rw [common_nameRule, descriptionRule, normalizeOpt_of_allWs h]
    exact ⟨rfl, rfl⟩
  · rw [common_nameRule, descriptionRule, normalizeOpt_of_not_allWs h]
    exact ⟨rfl, rfl⟩

/-- C9 witness: a whitespace-only input goes to null, a padded name is
trimmed, and renormalizing a normalized value changes nothing. -/
theorem textNormalization_ws_null_idem_witness :
    (common_nameRule (some "   ") = .ok none ∧ descriptionRule (some "   ") = .ok none) ∧
    (common_nameRule (some " Guinea pig ") = .ok (some (jsTrim " Guinea pig ")) ∧
      descriptionRule (some " Guinea pig ") = .ok (some (jsTrim " Guinea pig "))) ∧
    normalizeOpt (normalizeOpt (some " Guinea pig ")) = normalizeOpt (some " Guinea pig ") :=
  ⟨(textNormalization_ws_null_idem "   " (some " Guinea pig ")).1 (by decide),
   (textNormalization_ws_null_idem " Guinea pig " (some " Guinea pig ")).2.1 (by decide),
   (textNormalization_ws_null_idem " Guinea pig " (some " Guinea pig ")).2.2⟩

/-- C10: the url check of the image rule runs before the empty-to-null
transform: every non-null input failing the url check, the empty and
whitespace-only strings included, is rejected with a format error, and a null
image output arises only from a null input; the common_name rule, by
contrast, sends the empty string to null. -/
theorem imageRule_url_before_null_transform (s : String) (x : Option String) :
    (isValidUrl s = false → imageRule (some s) = .error .FormatError) ∧
    (imageRule x = .ok none → x = none) ∧
    imageRule (some "") = .error .FormatError ∧
    imageRule (some " ") = .error .FormatError ∧
    common_nameRule (some "") = .ok none := by
  refine ⟨fun h => by simp [imageRule, h], fun h => ?_, by decide, by decide, by decide⟩
  cases x with
  | none => rfl
  | some s₂ =>
    by_cases hv : isValidUrl s₂ = true
    · rw [imageRule] at h
      rw [if_pos hv, normalizeOpt_of_isValidUrl hv] at h
      cases h
    · rw [imageRule, if_neg hv] at h
      cases h

/-- C10 witness: the empty string and a whitespace string are rejected by the
image rule while the common_name rule nullifies the empty string, and a valid
url input keeps a non-null output. -/
theorem imageRule_url_before_null_transform_witness :
    imageRule (some "") = .error .FormatError ∧
    imageRule (some " ") = .error .FormatError ∧
    common_nameRule (some "") = .ok none ∧
    imageRule (some "notaurl") = .error .FormatError :=
  ⟨(imageRule_url_before_null_transform "" none).2.2.1,
   (imageRule_url_before_null_transform "" none).2.2.2.1,
   (imageRule_url_before_null_transform "" none).2.2.2.2,
   (imageRule_url_before_null_transform "notaurl" none).1 (by decide)⟩

end SpeciesApp
